import Mathlib

/-!
Verification of the pave-billing service (Go, Encore + Temporal) against its
natural-language specification.

Shallow embedding conventions:
* `shopspring/decimal` fixed-point values are modelled as `ℚ` (all operations
  the code performs on them — `Mul`, `Add`, comparisons, `Round` — are exact on
  decimals and are matched exactly on `ℚ`).
* `time.Time` instants and `time.Duration` values are modelled as `Int`
  (nanoseconds; no arithmetic in the modelled code can overflow int64 for the
  configured horizons, so plain `Int` is faithful).
* `uuid.UUID` values are modelled as `String`.
* Go `map[string]T` values built by the modelled code are association lists in
  first-insertion order; all facts proved about them are iteration-order
  independent, matching Go's unordered map iteration.
* Fallible Go functions returning `error` become `Except`/`Option`.
-/

deriving instance DecidableEq for Except

namespace PaveBilling

/-- `decimal.Decimal.Round(places)` of shopspring/decimal: round to `places`
fractional digits, half away from zero.  `roundHalfAwayFromZero` is the
integer-valued core. -/
def roundHalfAwayFromZero (q : ℚ) : ℤ :=
  if 0 ≤ q then ⌊q + 1/2⌋ else -⌊-q + 1/2⌋


/-- Round `q` to `places` fractional digits, half away from zero
(`decimal.Decimal.Round`). -/
def roundDec (places : ℕ) (q : ℚ) : ℚ :=
  ((roundHalfAwayFromZero (q * (10 : ℚ) ^ places) : ℚ)) / (10 : ℚ) ^ places


/-- `money.GetCurrency(code).Fraction` of Rhymond/go-money for the currencies
admitted by the configured allow-list: both `USD` and `GEL` have fraction 2 in
the go-money currency table.  (For codes outside the table the Go library
returns `nil` and the code would panic before reading `Fraction`; no claim
exercises that corner, and the model keeps the function total.) -/
def currencyFraction (c : String) : ℕ :=
  match c with
  | "USD" => 2
  | "GEL" => 2
  | _ => 2


/-! ### Data model (`billing/models/models.go`) -/

/-- `models.BillStatusOpen`. -/
def BillStatusOpen : String := "open"


/-- `models.BillStatusClosed`. -/
def BillStatusClosed : String := "closed"


/-- `models.LineItem`.  `Quantity`, `UnitPrice`, `Total` are `decimal.Decimal`
in the source, modelled as `ℚ`. -/
structure LineItem where
  ID : String
  BillID : String
  Description : String
  Currency : String
  Quantity : ℚ
  UnitPrice : ℚ
  CreatedAt : Int
  Total : ℚ := 0
  deriving DecidableEq


/-- `models.Converted`: one converted-total entry. -/
structure Converted where
  Amount : ℚ
  RateUpdatedAt : Int
  deriving DecidableEq


/-- `models.Total`.  The two Go maps are modelled as association lists in
first-insertion order. -/
structure Total where
  ByCurrency : List (String × ℚ)
  Converted : List (String × Converted)
  deriving DecidableEq


/-- `models.Bill`. -/
structure Bill where
  ID : String
  CustomerID : String
  Status : String
  PeriodStart : Int
  PeriodEnd : Int
  WorkflowID : String
  CreatedAt : Int
  UpdatedAt : Int
  ClosedAt : Option Int := none
  LineItems : List LineItem := []
  Total : Option Total := none
  deriving DecidableEq


/-- `models.RatesData`.  `Rates` is `map[string]float64` in the source; the
cross-rate multipliers are modelled as exact rationals. -/
structure RatesData where
  Rates : List (String × ℚ)
  UpdatedAt : Int
  deriving DecidableEq


/-- `Bill.IsOpen`. -/
def billIsOpen (b : Bill) : Bool :=
  b.Status == BillStatusOpen


/-- `Bill.IsClosed`. -/
def billIsClosed (b : Bill) : Bool :=
  b.Status == BillStatusClosed


/-- `Bill.AddLineItem`: refuse if closed, else append the item at the tail of
the line-item list.  Go mutates the receiver and returns `success`; the model
returns the updated bill with the flag. -/
def billAddLineItem (b : Bill) (item : LineItem) : Bill × Bool :=
  if billIsClosed b then (b, false)
  else ({ b with LineItems := b.LineItems ++ [item] }, true)


/-- `Bill.Close`: refuse if already closed, else set status to closed and
record the closure instant. -/
def billClose (b : Bill) (at_ : Int) : Bill × Bool :=
  if billIsClosed b then (b, false)
  else ({ b with Status := BillStatusClosed, ClosedAt := some at_ }, true)


/-! ### Total computation (`Bill.CalculateSum`) -/

/-- Lookup in a Go map modelled as an association list (first match; keys of
maps built by the modelled code are unique). -/
def lookupRate (rates : List (String × ℚ)) (c : String) : Option ℚ :=
  match rates with
  | [] => none
  | (c', x) :: rest => if c' = c then some x else lookupRate rest c


/-- One upsert step of building `Total.ByCurrency`:
`b.Total.ByCurrency[cur] = b.Total.ByCurrency[cur].Add(amount)` on the
association-list model of the Go map. -/
def addTo (l : List (String × ℚ)) (cur : String) (amount : ℚ) : List (String × ℚ) :=
  match l with
  | [] => [(cur, amount)]
  | (c', q') :: rest =>
    if c' = cur then (c', q' + amount) :: rest else (c', q') :: addTo rest cur amount


/-- The `ByCurrency` map of `Bill.CalculateSum`: fold of
`item.UnitPrice.Mul(item.Quantity)` over the line items, grouped by currency. -/
def byCurrency (items : List LineItem) : List (String × ℚ) :=
  items.foldl (fun acc item => addTo acc item.Currency (item.UnitPrice * item.Quantity)) []


/-- Errors surfaced by `Bill.CalculateSum` (`models.ErrCurrencyNotFound`). -/
inductive BillError where
  | currencyNotFound
  deriving DecidableEq


/-- Inner loop of `Bill.CalculateSum` computing one `Converted` amount for
`cur`: starting from `cur`'s own subtotal, walk the `ByCurrency` entries,
skip the `cur` entry, and for every other entry look up both rates (error
`currencyNotFound` if either is absent) and add the converted, rounded
amount. -/
def convertedGo (rates : List (String × ℚ)) (cur : String) (frac : ℕ) :
    List (String × ℚ) → ℚ → Except BillError ℚ
  | [], sum => .ok sum
  | (other, amountOther) :: rest, sum =>
    if other = cur then convertedGo rates cur frac rest sum
    else
      match lookupRate rates other, lookupRate rates cur with
      | some fromX, some toX =>
        convertedGo rates cur frac rest (sum + roundDec frac (amountOther * (toX / fromX)))
      | some _, none => .error .currencyNotFound
      | none, _ => .error .currencyNotFound


/-- The outer loop of `Bill.CalculateSum` building `Total.Converted`: one
`Converted` entry per `ByCurrency` entry, carrying the rates snapshot's
timestamp. -/
def buildConverted (r : RatesData) (byCur : List (String × ℚ)) :
    List (String × ℚ) → Except BillError (List (String × Converted))
  | [] => .ok []
  | (cur, amount) :: rest =>
    match convertedGo r.Rates cur (currencyFraction cur) byCur amount with
    | .error e => .error e
    | .ok a =>
      match buildConverted r byCur rest with
      | .error e => .error e
      | .ok tail => .ok ((cur, { Amount := a, RateUpdatedAt := r.UpdatedAt }) :: tail)


/-- `Bill.CalculateSum`: no-op on an empty line-item list; otherwise set every
item's `Total`, build `ByCurrency`, then build `Converted` (failing with
`currencyNotFound` when a needed rate is absent).  Go mutates the bill in
place; the model returns the updated bill, and an error result corresponds to
the Go caller discarding the bill. -/
def calculateSum (b : Bill) (r : RatesData) : Except BillError Bill :=
  if b.LineItems = [] then .ok b
  else
    let items := b.LineItems.map (fun item => { item with Total := item.UnitPrice * item.Quantity })
    let byCur := byCurrency b.LineItems
    match buildConverted r byCur byCur with
    | .error e => .error e
    | .ok conv => .ok { b with LineItems := items, Total := some { ByCurrency := byCur, Converted := conv } }


/-! ### Durable bill machine (`billing/core/workflow.go`, `BillWorkflows.CreateBill`)

The workflow is a selection loop over three stimuli; each loop iteration is a
pure step on the workflow state.  Activity invocations are recorded in an
effect log. -/

/-- Activities invoked by the machine (`core.BillingActivities`). -/
inductive WfActivity where
  | saveBillAct (b : Bill)
  | addLineItemToBillAct (item : LineItem)
  | closeBillAct (billID : String) (closedAt : Int)
  deriving DecidableEq


/-- In-memory state of one machine instance: the bill owned by the workflow
and the log of activities it has invoked. -/
structure WfState where
  bill : Bill
  activityLog : List WfActivity
  deriving DecidableEq


/-- The three stimuli the selection loop awaits.  `timerFire` carries
`workflow.Now(ctx)` at the moment the timer fires. -/
inductive WfEvent where
  | addItem (item : LineItem)
  | closeSig (requestedAt : Int)
  | timerFire (now : Int)
  deriving DecidableEq


/-- The `closeBill` helper of `workflow.go`: `bill.Close(requestedAt)`; on
success invoke the `CloseBill` activity, on failure (already closed) do
nothing. -/
def wfCloseBill (s : WfState) (requestedAt : Int) : WfState :=
  let (b', success) := billClose s.bill requestedAt
  if success then
    { bill := b', activityLog := s.activityLog ++ [.closeBillAct s.bill.ID requestedAt] }
  else s


/-- One iteration of the workflow's selection loop.  Add-line-item:
`bill.AddLineItem(signal.LineItem)`; if it succeeded invoke the
`AddLineItemToBill` activity, else log and drop.  Close signal and timer both
go through the `closeBill` helper, the timer using the machine time at the
fire. -/
def wfStep (e : WfEvent) (s : WfState) : WfState :=
  match e with
  | .addItem item =>
    let (b', success) := billAddLineItem s.bill item
    if success then
      { bill := b', activityLog := s.activityLog ++ [.addLineItemToBillAct item] }
    else s
  | .closeSig requestedAt => wfCloseBill s requestedAt
  | .timerFire now => wfCloseBill s now


/-- Processing a sequence of stimuli in delivery order. -/
def wfRun (events : List WfEvent) (s : WfState) : WfState :=
  events.foldl (fun s e => wfStep e s) s


/-- Timer armed on start: `duration := bill.PeriodEnd.Sub(workflow.Now(ctx))`,
clamped to `0` when negative. -/
def wfTimerDuration (b : Bill) (now : Int) : Int :=
  let duration := b.PeriodEnd - now
  if duration < 0 then 0 else duration


/-- Machine start: execute `SaveBill` and abort on failure; on success the
state enters the selection loop with the period-end timer armed. -/
def wfInit (b : Bill) (saveBillOk : Bool) (now : Int) : Option (WfState × Int) :=
  if saveBillOk then
    some ({ bill := b, activityLog := [.saveBillAct b] }, wfTimerDuration b now)
  else none


/-! ### Billing service (`billing/core/service.go`)

Each service operation is modelled as a pure function over an environment
recording what the collaborators (Temporal machine query, repository, rate
service, signal delivery) answer during the operation.  Operations that signal
the machine additionally return the list of signals they delivered. -/

/-- Repository `GetBillByID` failures: `sql.ErrNoRows` versus any other
database error. -/
inductive RepoFault where
  | noRows
  | dbFault
  deriving DecidableEq


/-- Service-level errors (`models.Err...` values and wrapped internal
errors). -/
inductive ServiceErr where
  | billNotFound
  | billClosed
  | currencyNotFound
  | upstreamUnavailable
  | signalFailed
  | dbFailure
  deriving DecidableEq


/-- Signals the service can deliver to a machine instance. -/
inductive Signal where
  | addLineItemSig (item : LineItem)
  | closeBillSig (requestedAt : Int)
  deriving DecidableEq


/-- What the collaborators answer during one read of the bill: the machine
query result (`QueryWorkflow` + decoding, `.error` for instance not found,
terminated, substrate or decode failure), the repository result, the rate
service result, and whether `SignalWorkflow` succeeds. -/
structure SvcEnv where
  machineQuery : Except Unit Bill
  repoResult : Except RepoFault Bill
  ratesResult : Except Unit RatesData
  signalOk : Bool
  deriving DecidableEq


/-- `service.calculateSum`: fetch rates (failure surfaces as
upstream-unavailable), then `bill.CalculateSum`. -/
def svcCalculateSum (env : SvcEnv) (b : Bill) : Except ServiceErr Bill :=
  match env.ratesResult with
  | .error _ => .error .upstreamUnavailable
  | .ok r =>
    match calculateSum b r with
    | .error .currencyNotFound => .error .currencyNotFound
    | .ok b' => .ok b'


/-- `service.GetBillByID`: query the machine first and, when the query
succeeds, answer from it (computing totals); on query failure fall back to the
repository, mapping `sql.ErrNoRows` to `ErrBillNotFound`, and compute totals
on the stored record. -/
def getBillByID (env : SvcEnv) : Except ServiceErr Bill :=
  match env.machineQuery with
  | .ok b => svcCalculateSum env b
  | .error _ =>
    match env.repoResult with
    | .error .noRows => .error .billNotFound
    | .error .dbFault => .error .dbFailure
    | .ok b => svcCalculateSum env b


/-- `service.CloseBill`: read the bill; if already closed return it as-is
(no signal); otherwise send the close signal with `requested_at = now`,
re-read (environment `env2`), and optimistically mark the returned view
closed at `now`. -/
def closeBillSvc (env1 env2 : SvcEnv) (now : Int) : Except ServiceErr Bill × List Signal :=
  match getBillByID env1 with
  | .error e => (.error e, [])
  | .ok bill =>
    if billIsClosed bill then (.ok bill, [])
    else if env1.signalOk then
      match getBillByID env2 with
      | .error e => (.error e, [.closeBillSig now])
      | .ok b2 =>
        (.ok { b2 with Status := BillStatusClosed, ClosedAt := some now }, [.closeBillSig now])
    else (.error .signalFailed, [])


/-- `service.AddLineItemToBill`: read the bill; refuse when closed; send the
add-line-item signal carrying the freshly minted `newItem`; re-read
(environment `env2`) and optimistically `AddLineItem` the just-signalled item
onto the returned view. -/
def addLineItemSvc (env1 env2 : SvcEnv) (newItem : LineItem) :
    Except ServiceErr Bill × List Signal :=
  match getBillByID env1 with
  | .error e => (.error e, [])
  | .ok bill =>
    if billIsClosed bill then (.error .billClosed, [])
    else if env1.signalOk then
      match getBillByID env2 with
      | .error e => (.error e, [.addLineItemSig newItem])
      | .ok b2 => (.ok (billAddLineItem b2 newItem).1, [.addLineItemSig newItem])
    else (.error .signalFailed, [])


/-! ### Request admission (`billing/validation.go`, `ValidateAddLineItemRequest`) -/

/-- The admission bounds of `cfg.Billing.Validation` with the deployed values
(`MaxDescriptionLength` 500, `MaxQuantity` 1e6, `MaxUnitPrice` 1e6,
`MaxTotalAmount` 1e7, `AllowedCurrencies` USD and GEL). -/
structure ValidationLimits where
  MaxDescriptionLength : ℕ
  AllowedCurrencies : List String
  MaxQuantity : ℚ
  MaxUnitPrice : ℚ
  MaxTotalAmount : ℚ
  deriving DecidableEq


/-- The values configured in the repository's CUE config. -/
def deployedLimits : ValidationLimits :=
  { MaxDescriptionLength := 500
    AllowedCurrencies := ["USD", "GEL"]
    MaxQuantity := 1000000
    MaxUnitPrice := 1000000
    MaxTotalAmount := 10000000 }


/-- `models.AddLineItemRequest`. -/
structure AddLineItemRequest where
  Description : String
  Currency : String
  Quantity : ℚ
  UnitPrice : ℚ
  deriving DecidableEq


/-- The errors `ValidateAddLineItemRequest` can return, one constructor per
return site in the source. -/
inductive ValidationErr where
  | descriptionRequired
  | descriptionTooLong
  | invalidCurrency
  | invalidQuantity
  | quantityTooHigh
  | negativeUnitPrice
  | unitPriceTooHigh
  | totalAmountTooHigh
  deriving DecidableEq


/-- Encore error codes used by the validation errors (all of them carry
`errs.InvalidArgument`). -/
inductive ErrCode where
  | invalidArgument
  deriving DecidableEq


/-- The `errs.Error.Code` of each validation error (all return sites use
`errs.InvalidArgument`; `ErrInvalidCurrency` and `ErrInvalidQuantity` are
declared with that code in `models`). -/
def errCodeOf : ValidationErr → ErrCode
  | _ => .invalidArgument


/-- The `errs.Error.Message` of each validation error, as written at the
corresponding return site (the `%d`/`%f` bound renderings are spelled with
the deployed bounds). -/
def errMessageOf : ValidationErr → String
  | .descriptionRequired => "description is required"
  | .descriptionTooLong => "description cannot exceed 500 characters"
  | .invalidCurrency => "unsupported currency"
  | .invalidQuantity => "quantity must be greater than zero"
  | .quantityTooHigh => "quantity cannot exceed 1000000"
  | .negativeUnitPrice => "unit_price cannot be negative"
  | .unitPriceTooHigh => "unit_price cannot exceed 1000000"
  | .totalAmountTooHigh => "total line item amount cannot exceed 10000000"


/-- The request field each validation error is about. -/
def errFieldOf : ValidationErr → String
  | .descriptionRequired => "description"
  | .descriptionTooLong => "description"
  | .invalidCurrency => "currency"
  | .invalidQuantity => "quantity"
  | .quantityTooHigh => "quantity"
  | .negativeUnitPrice => "unit_price"
  | .unitPriceTooHigh => "unit_price"
  | .totalAmountTooHigh => "total"


/-- `ValidateAddLineItemRequest`, check for check in source order.  Go's
`len(req.Description)` counts bytes of the UTF-8 encoding, hence
`String.utf8ByteSize`; `slices.Contains` on the allow-list is
`List.contains`. -/
def validateAddLineItemRequest (cfg : ValidationLimits) (req : AddLineItemRequest) :
    Except ValidationErr Unit :=
  if req.Description = "" then .error .descriptionRequired
  else if cfg.MaxDescriptionLength < req.Description.utf8ByteSize then .error .descriptionTooLong
  else if ¬ cfg.AllowedCurrencies.contains req.Currency then .error .invalidCurrency
  else if req.Quantity ≤ 0 then .error .invalidQuantity
  else if cfg.MaxQuantity < req.Quantity then .error .quantityTooHigh
  else if req.UnitPrice < 0 then .error .negativeUnitPrice
  else if cfg.MaxUnitPrice < req.UnitPrice then .error .unitPriceTooHigh
  else if cfg.MaxTotalAmount < req.Quantity * req.UnitPrice then .error .totalAmountTooHigh
  else .ok ()


/-- Errors surfaced by the HTTP handler for add-line-item. -/
inductive HandlerErr where
  | invalidRequest (e : ValidationErr)
  | svcErr (e : ServiceErr)
  deriving DecidableEq


/-- `Handler.AddLineItem`: validate the request before calling the service;
a validation failure returns immediately, before any signal is sent or any
state is touched. -/
def handlerAddLineItem (cfg : ValidationLimits) (env1 env2 : SvcEnv)
    (req : AddLineItemRequest) (newItem : LineItem) : Except HandlerErr Bill × List Signal :=
  match validateAddLineItemRequest cfg req with
  | .error e => (.error (.invalidRequest e), [])
  | .ok _ =>
    match addLineItemSvc env1 env2 newItem with
    | (.error e, sigs) => (.error (.svcErr e), sigs)
    | (.ok b, sigs) => (.ok b, sigs)


/-! ### Rate service (`billing/ext_services`, `service.GetRates` /
`service.updateRates`) -/

/-- In-process state of the rate service: the adopted snapshot and its
`updatedAt` stamp. -/
structure RateSvcState where
  rates : List (String × ℚ)
  updatedAt : Int
  deriving DecidableEq


/-- What the collaborators answer during one `GetRates` call: the current
time, the shared-cache lookup, and the provider fetch result (the decoded
`rates` map on HTTP 200, an error on non-200/timeout). -/
structure RateCallEnv where
  now : Int
  cacheLookup : Option RatesData
  fetchResult : Except Unit (List (String × ℚ))
  deriving DecidableEq


/-- `service.updateRates` for one call.  Returns the updated in-process state
(or the fetch error), plus two flags: whether the shared cache was consulted
and whether the external provider was consulted.  Freshness check:
`time.Now().Before(s.updatedAt.Add(ttl))`.  On adoption from the shared cache
the state takes the cached `UpdatedAt`; on a provider fetch the state takes
`time.Now().Add(ttl)` (the cache write is fire-and-forget and its failure is
swallowed). -/
def updateRates (ttl : Int) (s : RateSvcState) (env : RateCallEnv) :
    Except Unit RateSvcState × Bool × Bool :=
  if env.now < s.updatedAt + ttl then (.ok s, false, false)
  else
    match env.cacheLookup with
    | some data => (.ok { rates := data.Rates, updatedAt := data.UpdatedAt }, true, false)
    | none =>
      match env.fetchResult with
      | .error e => (.error e, true, true)
      | .ok fetched => (.ok { rates := fetched, updatedAt := env.now + ttl }, true, true)


/-- `service.GetRates`: run `updateRates`, then expose the in-process snapshot
as a `RatesData`. -/
def getRates (ttl : Int) (s : RateSvcState) (env : RateCallEnv) :
    Except Unit (RatesData × RateSvcState) × Bool × Bool :=
  match updateRates ttl s env with
  | (.error e, c, f) => (.error e, c, f)
  | (.ok s', c, f) => (.ok ({ Rates := s'.rates, UpdatedAt := s'.updatedAt }, s'), c, f)


/-! ### Spec-side formalisations (used to compare the spec's wording with the
code) -/

/-- The rate a snapshot assigns to a currency (total function for stating
formulas; only applied where the rate is present). -/
def rateOf (rates : List (String × ℚ)) (c : String) : ℚ :=
  (lookupRate rates c).getD 0


/-- The converted-total formula of the specification, read as rounding each
per-currency term: `converted[C] = Σ over C' of round_C(by[C'] · rate[C]/rate[C'])`. -/
def claimConvertedPerTerm (rates byCur : List (String × ℚ)) (c : String) : ℚ :=
  (byCur.map (fun q => roundDec (currencyFraction c) (q.2 * (rateOf rates c / rateOf rates q.1)))).sum


/-- The converted-total formula of the specification, read as rounding the
whole sum: `converted[C] = round_C(Σ over C' of by[C'] · rate[C]/rate[C'])`. -/
def claimConvertedWholeSum (rates byCur : List (String × ℚ)) (c : String) : ℚ :=
  roundDec (currencyFraction c) ((byCur.map (fun q => q.2 * (rateOf rates c / rateOf rates q.1))).sum)


/-- What the code actually computes for one converted entry: the
own-currency subtotal (unrounded) plus the per-term-rounded conversions of
the other currencies' subtotals. -/
def codeConvertedAmount (rates byCur : List (String × ℚ)) (c : String) (a : ℚ) : ℚ :=
  a + ((byCur.filter (fun q => q.1 ≠ c)).map
        (fun q => roundDec (currencyFraction c) (q.2 * (rateOf rates c / rateOf rates q.1)))).sum


/-- The claim's admission predicate for add-line-item, with the description
bound read as a bound on the number of *characters* (the spec's wording);
`validateAddLineItemRequest` is the code's check. -/
def claimAcceptsAddLineItem (cfg : ValidationLimits) (req : AddLineItemRequest) : Prop :=
  req.Description ≠ "" ∧ req.Description.length ≤ cfg.MaxDescriptionLength ∧
  req.Currency ∈ cfg.AllowedCurrencies ∧
  0 < req.Quantity ∧ req.Quantity ≤ cfg.MaxQuantity ∧
  0 ≤ req.UnitPrice ∧ req.UnitPrice ≤ cfg.MaxUnitPrice ∧
  req.Quantity * req.UnitPrice ≤ cfg.MaxTotalAmount


/-- A bill view shows a consistent total when its `Total.ByCurrency` is the
per-currency grouping of its own line-item list (and a missing total is
consistent only with an empty list). -/
def totalsAccountForItems (b : Bill) : Prop :=
  match b.Total with
  | some t => t.ByCurrency = byCurrency b.LineItems
  | none => b.LineItems = []


/-- Fixture: a closed bill inside a machine state. -/
def c1Bill : Bill :=
  { ID := "b1", CustomerID := "c1", Status := "closed", PeriodStart := 0,
    PeriodEnd := 100, WorkflowID := "bill-b1", CreatedAt := 0, UpdatedAt := 0,
    ClosedAt := some 40 }


/-- Fixture: machine state owning `c1Bill`. -/
def c1State : WfState :=
  { bill := c1Bill, activityLog := [.saveBillAct c1Bill, .closeBillAct "b1" 40] }


/-- Fixture: a line item signalled after closure. -/
def c1Item : LineItem :=
  { ID := "li1", BillID := "b1", Description := "late", Currency := "USD",
    Quantity := 1, UnitPrice := 2, CreatedAt := 41 }


/-- Fixture: an open bill. -/
def c10OpenBill : Bill :=
  { ID := "b10", CustomerID := "c10", Status := "open", PeriodStart := 0,
    PeriodEnd := 50, WorkflowID := "bill-b10", CreatedAt := 0, UpdatedAt := 0 }


/-- Fixture: a closed bill. -/
def c10ClosedBill : Bill :=
  { ID := "b10c", CustomerID := "c10", Status := "closed", PeriodStart := 0,
    PeriodEnd := 50, WorkflowID := "bill-b10c", CreatedAt := 0, UpdatedAt := 0,
    ClosedAt := some 7 }


/-- Fixture: a line item for the frame-condition witness. -/
def c10Item : LineItem :=
  { ID := "li10", BillID := "b10", Description := "svc", Currency := "USD",
    Quantity := 3, UnitPrice := 4, CreatedAt := 1 }


/-- Fixture: a closed bill as the machine answers it. -/
def c4Bill : Bill :=
  { ID := "b4", CustomerID := "c4", Status := "closed", PeriodStart := 0,
    PeriodEnd := 60, WorkflowID := "bill-b4", CreatedAt := 0, UpdatedAt := 0,
    ClosedAt := some 13 }


/-- Fixture: environment whose machine query answers `c4Bill`. -/
def c4Env : SvcEnv :=
  { machineQuery := .ok c4Bill, repoResult := .error .noRows,
    ratesResult := .ok { Rates := [("USD", 1)], UpdatedAt := 2 }, signalOk := true }


/-- Fixture: a stored bill the repository returns on fallback. -/
def c9Bill : Bill :=
  { ID := "b9", CustomerID := "c9", Status := "closed", PeriodStart := 0,
    PeriodEnd := 30, WorkflowID := "bill-b9", CreatedAt := 0, UpdatedAt := 0,
    ClosedAt := some 30 }


/-- Fixture: machine query fails, repository has no rows. -/
def c9EnvNoRows : SvcEnv :=
  { machineQuery := .error (), repoResult := .error .noRows,
    ratesResult := .ok { Rates := [("USD", 1)], UpdatedAt := 2 }, signalOk := true }


/-- Fixture: machine query fails, repository returns `c9Bill`. -/
def c9EnvFound : SvcEnv :=
  { machineQuery := .error (), repoResult := .ok c9Bill,
    ratesResult := .ok { Rates := [("USD", 1)], UpdatedAt := 2 }, signalOk := true }


/-- Fixture: the line item already on the bill before the call. -/
def c5Existing : LineItem :=
  { ID := "li0", BillID := "b5", Description := "old", Currency := "USD",
    Quantity := 1, UnitPrice := 10, CreatedAt := 0 }


/-- Fixture: the stored open bill holding `c5Existing`. -/
def c5Raw : Bill :=
  { ID := "b5", CustomerID := "c5", Status := "open", PeriodStart := 0,
    PeriodEnd := 80, WorkflowID := "bill-b5", CreatedAt := 0, UpdatedAt := 0,
    LineItems := [c5Existing] }


/-- Fixture: environment answering `c5Raw` from the machine with a USD rate
snapshot. -/
def c5Env : SvcEnv :=
  { machineQuery := .ok c5Raw, repoResult := .error .noRows,
    ratesResult := .ok { Rates := [("USD", 1)], UpdatedAt := 5 }, signalOk := true }


/-- Fixture: the freshly minted line item being added. -/
def c5New : LineItem :=
  { ID := "li1", BillID := "b5", Description := "new", Currency := "USD",
    Quantity := 1, UnitPrice := 10, CreatedAt := 1 }


/-- Fixture: the bill view `add_line_item` actually returns: the new item is
in the list, but the totals still only cover the pre-append items. -/
def c5Out : Bill :=
  { c5Raw with
    LineItems := [{ c5Existing with Total := 10 }, c5New],
    Total := some { ByCurrency := [("USD", 10)],
                    Converted := [("USD", { Amount := 10, RateUpdatedAt := 5 })] } }


/-- Fixture: an open bill with no items yet, for the witness. -/
def c5WBill : Bill :=
  { ID := "b5w", CustomerID := "c5", Status := "open", PeriodStart := 0,
    PeriodEnd := 80, WorkflowID := "bill-b5w", CreatedAt := 0, UpdatedAt := 0 }


/-- Fixture: environment answering the empty open bill. -/
def c5WEnv : SvcEnv :=
  { machineQuery := .ok c5WBill, repoResult := .error .noRows,
    ratesResult := .ok { Rates := [("USD", 1)], UpdatedAt := 5 }, signalOk := true }


/-- Fixture: a request whose description is 251 two-byte characters — 251
characters, 502 UTF-8 bytes. -/
def c7Req : AddLineItemRequest :=
  { Description := String.mk (List.replicate 251 'é'), Currency := "USD",
    Quantity := 1, UnitPrice := 1 }


/-- Fixture: a request passing every admission check. -/
def c7GoodReq : AddLineItemRequest :=
  { Description := "consulting", Currency := "USD", Quantity := 2, UnitPrice := 10 }


/-- Fixture: a request with an empty description. -/
def c7BadReq : AddLineItemRequest :=
  { Description := "", Currency := "USD", Quantity := 2, UnitPrice := 10 }


/-- Fixture: an arbitrary service environment for the handler witness. -/
def c7Env : SvcEnv :=
  { machineQuery := .error (), repoResult := .error .noRows,
    ratesResult := .ok { Rates := [("USD", 1)], UpdatedAt := 0 }, signalOk := true }


/-- Fixture: the line item the handler would mint for `c7BadReq`. -/
def c7Item : LineItem :=
  { ID := "li7", BillID := "b7", Description := "", Currency := "USD",
    Quantity := 2, UnitPrice := 10, CreatedAt := 0 }


/-! ### Rate-service theorems -/

/-- Fixture: an in-process state so stale that any call refreshes it. -/
def c8StaleState : RateSvcState :=
  { rates := [], updatedAt := -1000000000 }


/-- Fixture: a call at time 0 that misses the shared cache and fetches from
the provider. -/
def c8FetchEnv : RateCallEnv :=
  { now := 0, cacheLookup := none, fetchResult := .ok [("USD", 1)] }


/-- Fixture: the state after the provider fetch at time 0 with TTL 86400 —
the code stamps it `updatedAt = 86400`, the fetch time *plus* the TTL. -/
def c8FetchedState : RateSvcState :=
  { rates := [("USD", 1)], updatedAt := 86400 }


/-- Fixture: a call one second after the snapshot's age exceeded the TTL,
with fresher rates sitting in the shared cache. -/
def c8LateEnv : RateCallEnv :=
  { now := 86401, cacheLookup := some { Rates := [("GEL", 1)], UpdatedAt := 86000 },
    fetchResult := .ok [("GEL", 1)] }


/-- Fixture: scenario-2 item, 1 × 10 USD. -/
def c2Item1 : LineItem :=
  { ID := "li1", BillID := "b2", Description := "X", Currency := "USD",
    Quantity := 1, UnitPrice := 10, CreatedAt := 0 }


/-- Fixture: scenario-2 item, 2 × 5 GEL. -/
def c2Item2 : LineItem :=
  { ID := "li2", BillID := "b2", Description := "Y", Currency := "GEL",
    Quantity := 2, UnitPrice := 5, CreatedAt := 0 }


/-- Fixture: the specification's multi-currency example bill. -/
def c2Bill : Bill :=
  { ID := "b2", CustomerID := "c2", Status := "open", PeriodStart := 0,
    PeriodEnd := 100, WorkflowID := "bill-b2", CreatedAt := 0, UpdatedAt := 0,
    LineItems := [c2Item1, c2Item2] }


/-- Fixture: the specification's example rates snapshot. -/
def c2Rates : RatesData := { Rates := [("USD", 1), ("GEL", 5/2)], UpdatedAt := 7 }


-- C2 counterexample
/-- Fixture: an item whose subtotal (10.005) exceeds USD's 2 fractional
digits. -/
def c2cItem1 : LineItem :=
  { ID := "li1", BillID := "b2c", Description := "X", Currency := "USD",
    Quantity := 1, UnitPrice := 10.005, CreatedAt := 0 }


/-- Fixture: a second-currency item so the conversion loop runs. -/
def c2cItem2 : LineItem :=
  { ID := "li2", BillID := "b2c", Description := "Y", Currency := "GEL",
    Quantity := 1, UnitPrice := 1, CreatedAt := 0 }


/-- Fixture: the bill refuting the claim's rounding formula. -/
def c2cBill : Bill :=
  { ID := "b2c", CustomerID := "c2", Status := "open", PeriodStart := 0,
    PeriodEnd := 100, WorkflowID := "bill-b2c", CreatedAt := 0, UpdatedAt := 0,
    LineItems := [c2cItem1, c2cItem2] }


/-- Fixture: unit rates, so conversion only rounds. -/
def c2cRates : RatesData := { Rates := [("USD", 1), ("GEL", 1)], UpdatedAt := 3 }


-- C3 fixtures
/-- Fixture: a USD item. -/
def c3ItemUSD : LineItem :=
  { ID := "li1", BillID := "b3", Description := "X", Currency := "USD",
    Quantity := 1, UnitPrice := 2, CreatedAt := 0 }


/-- Fixture: a GEL item. -/
def c3ItemGEL : LineItem :=
  { ID := "li2", BillID := "b3", Description := "Y", Currency := "GEL",
    Quantity := 1, UnitPrice := 3, CreatedAt := 0 }


/-- Fixture: a bill spanning two currencies. -/
def c3Bill : Bill :=
  { ID := "b3", CustomerID := "c3", Status := "open", PeriodStart := 0,
    PeriodEnd := 100, WorkflowID := "bill-b3", CreatedAt := 0, UpdatedAt := 0,
    LineItems := [c3ItemUSD, c3ItemGEL] }


/-- Fixture: snapshot lacking GEL. -/
def c3RatesMissing : RatesData := { Rates := [("USD", 1)], UpdatedAt := 0 }


/-- Fixture: snapshot covering both currencies. -/
def c3RatesFull : RatesData := { Rates := [("USD", 1), ("GEL", 2)], UpdatedAt := 0 }


-- C3 counterexample: single-currency bill, rate absent, yet no failure
/-- Fixture: a single GEL item. -/
def c3cItem : LineItem :=
  { ID := "li1", BillID := "b3c", Description := "Z", Currency := "GEL",
    Quantity := 2, UnitPrice := 3, CreatedAt := 0 }


/-- Fixture: a single-currency bill. -/
def c3cBill : Bill :=
  { ID := "b3c", CustomerID := "c3", Status := "open", PeriodStart := 0,
    PeriodEnd := 100, WorkflowID := "bill-b3c", CreatedAt := 0, UpdatedAt := 0,
    LineItems := [c3cItem] }


/-- Fixture: an empty rates snapshot. -/
def c3cRates : RatesData := { Rates := [], UpdatedAt := 0 }


/-! ### Theorems -/

/-! ### Workflow-level theorems -/

/-- Once the in-memory bill is closed, every stimulus leaves the machine state
unchanged: `AddLineItem` and `Close` both refuse, so no activity is invoked. -/
theorem wfStep_of_closed (s : WfState) (h : s.bill.Status = BillStatusClosed) (e : WfEvent) :
    wfStep e s = s := by
  have hc : billIsClosed s.bill = true := by
    simp [billIsClosed, h]
  cases e with
  | addItem item => simp [wfStep, billAddLineItem, hc]
  | closeSig t => simp [wfStep, wfCloseBill, billClose, hc]
  | timerFire t => simp [wfStep, wfCloseBill, billClose, hc]


/-- C1: in the durable bill machine, an add-line-item signal processed while
the in-memory bill is closed is dropped — the whole machine state (in-memory
line items and activity log, hence persistence) is unchanged — and more
generally every later stimulus sequence leaves the closed state untouched, so
no line item is appended or persisted after the bill closes. -/
theorem spec_C1 (s : WfState) (item : LineItem) (events : List WfEvent)
    (h : s.bill.Status = BillStatusClosed) :
    wfStep (.addItem item) s = s ∧ wfRun events s = s := by
  refine ⟨wfStep_of_closed s h _, ?_⟩
  induction events with
  | nil => rfl
  | cons e rest ih =>
    show wfRun rest (wfStep e s) = s
    rw [wfStep_of_closed s h e]
    exact ih


/-- Witness for C1 at a concrete closed machine state. -/
theorem spec_C1_witness :
    wfStep (.addItem c1Item) c1State = c1State
    ∧ wfRun [.addItem c1Item, .closeSig 50, .timerFire 100] c1State = c1State :=
  spec_C1 c1State c1Item [.addItem c1Item, .closeSig 50, .timerFire 100] rfl


/-- C6: on machine start (after `save_bill` succeeds) the period-end timer is
armed with duration `max (period_end − now) 0`, and a timer fire is processed
identically to a close-bill signal whose `requested_at` is the machine time at
the fire. -/
theorem spec_C6 :
    (∀ (b : Bill) (saveBillOk : Bool) (now : Int),
        (wfInit b saveBillOk now).map Prod.snd =
          if saveBillOk then some (max (b.PeriodEnd - now) 0) else none)
    ∧ (∀ (t : Int) (s : WfState), wfStep (.timerFire t) s = wfStep (.closeSig t) s) := by
  constructor
  · intro b saveBillOk now
    cases saveBillOk with
    | true =>
      simp only [wfInit, if_true, Option.map_some, if_pos]
      have : wfTimerDuration b now = max (b.PeriodEnd - now) 0 := by
        simp only [wfTimerDuration]
        omega
      rw [this]
      rfl
    | false => rfl
  · intro t s
    rfl


/-- C10 (frame conditions of the bill mutators): on an open bill, `Close`
changes exactly the status and `closed_at` fields and `AddLineItem` changes
exactly the line-item list by appending at the tail; on a closed bill both
report failure and leave the bill untouched. -/
theorem spec_C10 :
    (∀ (b : Bill) (t : Int), b.Status = BillStatusOpen →
        billClose b t = ({ b with Status := BillStatusClosed, ClosedAt := some t }, true))
    ∧ (∀ (b : Bill) (item : LineItem), b.Status = BillStatusOpen →
        billAddLineItem b item = ({ b with LineItems := b.LineItems ++ [item] }, true))
    ∧ (∀ (b : Bill) (t : Int), b.Status = BillStatusClosed → billClose b t = (b, false))
    ∧ (∀ (b : Bill) (item : LineItem), b.Status = BillStatusClosed →
        billAddLineItem b item = (b, false)) := by
  refine ⟨?_, ?_, ?_, ?_⟩
  · intro b t h
    simp [billClose, billIsClosed, h, BillStatusOpen, BillStatusClosed]
  · intro b item h
    simp [billAddLineItem, billIsClosed, h, BillStatusOpen, BillStatusClosed]
  · intro b t h
    simp [billClose, billIsClosed, h]
  · intro b item h
    simp [billAddLineItem, billIsClosed, h]


/-- Witness for C10 at concrete open and closed bills. -/
theorem spec_C10_witness :
    billClose c10OpenBill 9 =
      ({ c10OpenBill with Status := BillStatusClosed, ClosedAt := some 9 }, true)
    ∧ billAddLineItem c10OpenBill c10Item =
      ({ c10OpenBill with LineItems := c10OpenBill.LineItems ++ [c10Item] }, true)
    ∧ billClose c10ClosedBill 9 = (c10ClosedBill, false)
    ∧ billAddLineItem c10ClosedBill c10Item = (c10ClosedBill, false) :=
  ⟨spec_C10.1 c10OpenBill 9 rfl, spec_C10.2.1 c10OpenBill c10Item rfl,
   spec_C10.2.2.1 c10ClosedBill 9 rfl, spec_C10.2.2.2 c10ClosedBill c10Item rfl⟩


/-! ### Service-level theorems -/

/-- C4: closing an already-closed bill is a no-op: the service returns the
bill read from `get_bill` as-is and delivers no close signal, so the returned
`closed_at` is exactly the one already stored. -/
theorem spec_C4 (env1 env2 : SvcEnv) (now : Int) (b : Bill)
    (h1 : getBillByID env1 = .ok b) (h2 : b.Status = BillStatusClosed) :
    closeBillSvc env1 env2 now = (.ok b, []) := by
  simp [closeBillSvc, h1, billIsClosed, h2]


/-- Witness for C4: closing the concrete already-closed bill returns it
unchanged (`closed_at` still 13) and sends nothing. -/
theorem spec_C4_witness : closeBillSvc c4Env c4Env 99 = (.ok c4Bill, []) :=
  spec_C4 c4Env c4Env 99 c4Bill rfl rfl


/-- `Bill.CalculateSum` only rewrites the items' derived `Total` fields and
the bill's `Total` view; every identifying field survives. -/
theorem calculateSum_frame (b : Bill) (r : RatesData) (b' : Bill)
    (h : calculateSum b r = .ok b') :
    b'.ID = b.ID ∧ b'.CustomerID = b.CustomerID ∧ b'.Status = b.Status
    ∧ b'.PeriodStart = b.PeriodStart ∧ b'.PeriodEnd = b.PeriodEnd
    ∧ b'.WorkflowID = b.WorkflowID ∧ b'.ClosedAt = b.ClosedAt := by
  unfold calculateSum at h
  split at h
  · cases h
    exact ⟨rfl, rfl, rfl, rfl, rfl, rfl, rfl⟩
  · dsimp only at h
    split at h
    · cases h
    · cases h
      exact ⟨rfl, rfl, rfl, rfl, rfl, rfl, rfl⟩


/-- `service.calculateSum` preserves the identifying fields of the bill it
decorates with totals. -/
theorem svcCalculateSum_frame (env : SvcEnv) (b b' : Bill)
    (h : svcCalculateSum env b = .ok b') :
    b'.ID = b.ID ∧ b'.CustomerID = b.CustomerID ∧ b'.Status = b.Status
    ∧ b'.PeriodStart = b.PeriodStart ∧ b'.PeriodEnd = b.PeriodEnd
    ∧ b'.WorkflowID = b.WorkflowID ∧ b'.ClosedAt = b.ClosedAt := by
  unfold svcCalculateSum at h
  split at h
  · cases h
  · split at h
    · cases h
    · next heq =>
      cases h
      exact calculateSum_frame _ _ _ heq


/-- C9: when the machine query fails, `get_bill` falls back to the
repository: a no-rows answer becomes not-found, and a stored bill is the
record the response is computed from (the response keeps all its identifying
fields, only adding totals). -/
theorem spec_C9 (env : SvcEnv) (h : env.machineQuery = .error ()) :
    (env.repoResult = .error .noRows → getBillByID env = .error .billNotFound)
    ∧ (∀ b, env.repoResult = .ok b →
        getBillByID env = svcCalculateSum env b
        ∧ ∀ b', svcCalculateSum env b = .ok b' →
            b'.ID = b.ID ∧ b'.CustomerID = b.CustomerID ∧ b'.Status = b.Status
            ∧ b'.PeriodStart = b.PeriodStart ∧ b'.PeriodEnd = b.PeriodEnd
            ∧ b'.WorkflowID = b.WorkflowID ∧ b'.ClosedAt = b.ClosedAt) := by
  constructor
  · intro hr
    simp [getBillByID, h, hr]
  · intro b hb
    constructor
    · simp [getBillByID, h, hb]
    · intro b' hb'
      exact svcCalculateSum_frame env b b' hb'


/-- Witness for C9 at concrete environments: not-found on no rows, and the
repository record driving the response otherwise. -/
theorem spec_C9_witness :
    getBillByID c9EnvNoRows = .error .billNotFound
    ∧ getBillByID c9EnvFound = svcCalculateSum c9EnvFound c9Bill :=
  ⟨(spec_C9 c9EnvNoRows rfl).1 rfl, ((spec_C9 c9EnvFound rfl).2 c9Bill rfl).1⟩


/-- C5 (amended): a successful add-line-item call (bill open at both reads,
signal delivered, re-read succeeds) returns the re-read bill with the
just-signalled item appended at the tail of the line-item list — but the
`Total` of the returned view is exactly the re-read bill's total, computed
*before* the optimistic append, so it does not account for the new item. -/
theorem spec_C5 (env1 env2 : SvcEnv) (item : LineItem) (b1 b2 : Bill)
    (h1 : getBillByID env1 = .ok b1) (h2 : billIsClosed b1 = false)
    (h3 : env1.signalOk = true)
    (h4 : getBillByID env2 = .ok b2) (h5 : billIsClosed b2 = false) :
    addLineItemSvc env1 env2 item =
      (.ok { b2 with LineItems := b2.LineItems ++ [item] }, [.addLineItemSig item]) := by
  simp [addLineItemSvc, h1, h2, h3, h4, billAddLineItem, h5]


/-- Counterexample to C5 as stated: at this concrete successful call the
returned view does contain the just-signalled item, but its totals do not
account for it — `Total.ByCurrency` says USD 10 while the returned line items
sum to USD 20, so the caller does not see a consistent total. -/
theorem spec_C5_counterexample :
    addLineItemSvc c5Env c5Env c5New = (.ok c5Out, [.addLineItemSig c5New])
    ∧ c5New ∈ c5Out.LineItems
    ∧ ¬ totalsAccountForItems c5Out := by
  refine ⟨?_, by simp [c5Out, c5Raw], ?_⟩
  · norm_num [addLineItemSvc, getBillByID, svcCalculateSum, c5Env, c5Raw, c5Existing, c5New,
              c5Out, calculateSum, buildConverted, convertedGo, byCurrency, addTo, lookupRate,
              billIsClosed, billAddLineItem, BillStatusClosed]
    decide
  · simp only [totalsAccountForItems, c5Out, c5Raw]
    norm_num [byCurrency, addTo, c5Existing, c5New]


/-- Witness for the amended C5 at a concrete successful call. -/
theorem spec_C5_witness :
    addLineItemSvc c5WEnv c5WEnv c5New =
      (.ok { c5WBill with LineItems := c5WBill.LineItems ++ [c5New] }, [.addLineItemSig c5New]) :=
  spec_C5 c5WEnv c5WEnv c5New c5WBill c5WBill rfl rfl rfl rfl rfl


/-! ### Admission theorems -/

/-- C7 (amended): add-line-item admission accepts a request iff the
description is non-empty and at most `max_description_length` *bytes* of
UTF-8 (Go's `len` counts bytes, not characters), the currency is in the
allow-list, `0 < quantity ≤ max_quantity`,
`0 ≤ unit_price ≤ max_unit_price` and
`quantity × unit_price ≤ max_total_amount`; every violation is an
invalid-argument error whose message names the offending field, and the
handler rejects before calling the service, so no signal is sent and no state
changes. -/
theorem spec_C7 :
    (∀ (cfg : ValidationLimits) (req : AddLineItemRequest),
        validateAddLineItemRequest cfg req = .ok () ↔
          (req.Description ≠ "" ∧ req.Description.utf8ByteSize ≤ cfg.MaxDescriptionLength ∧
           req.Currency ∈ cfg.AllowedCurrencies ∧
           0 < req.Quantity ∧ req.Quantity ≤ cfg.MaxQuantity ∧
           0 ≤ req.UnitPrice ∧ req.UnitPrice ≤ cfg.MaxUnitPrice ∧
           req.Quantity * req.UnitPrice ≤ cfg.MaxTotalAmount))
    ∧ (∀ e : ValidationErr,
        errCodeOf e = .invalidArgument ∧ (errFieldOf e).data <:+: (errMessageOf e).data)
    ∧ (∀ (cfg : ValidationLimits) (env1 env2 : SvcEnv) (req : AddLineItemRequest)
          (item : LineItem) (e : ValidationErr),
        validateAddLineItemRequest cfg req = .error e →
          handlerAddLineItem cfg env1 env2 req item = (.error (.invalidRequest e), [])) := by
  refine ⟨?_, ?_, ?_⟩
  · intro cfg req
    unfold validateAddLineItemRequest
    constructor
    · intro h
      split_ifs at h with a1 a2 a3 a4 a5 a6 a7 a8
      push_neg at a2 a3 a4 a5 a6 a7 a8
      exact ⟨a1, a2, by simpa using a3, by linarith [a4], by linarith [a5],
             by linarith [a6], by linarith [a7], by linarith [a8]⟩
    · rintro ⟨h1, h2, h3, h4, h5, h6, h7, h8⟩
      rw [if_neg h1, if_neg (by omega), if_neg (by simpa using h3), if_neg (by linarith),
          if_neg (by linarith), if_neg (by linarith), if_neg (by linarith), if_neg (by linarith)]
  · intro e
    cases e <;> exact ⟨rfl, by decide⟩
  · intro cfg env1 env2 req item e h
    simp [handlerAddLineItem, h]


set_option maxRecDepth 10000 in
/-- Counterexample to C7 as stated: this request satisfies every admission
condition of the claim with the description bound read in characters
(251 ≤ 500), yet the code rejects it as too long, because `len` counts the
502 UTF-8 bytes. -/
theorem spec_C7_counterexample :
    claimAcceptsAddLineItem deployedLimits c7Req
    ∧ validateAddLineItemRequest deployedLimits c7Req = .error .descriptionTooLong := by
  constructor
  · refine ⟨by decide, by decide, by decide, by norm_num [c7Req, deployedLimits],
           by norm_num [c7Req, deployedLimits], by norm_num [c7Req, deployedLimits],
           by norm_num [c7Req, deployedLimits], by norm_num [c7Req, deployedLimits]⟩
  · unfold validateAddLineItemRequest
    rw [if_neg (by decide), if_pos (by decide)]


/-- Witness for the amended C7: a concrete in-bounds request is accepted, and
a concrete empty-description request makes the handler fail fast with no
signal sent. -/
theorem spec_C7_witness :
    validateAddLineItemRequest deployedLimits c7GoodReq = .ok ()
    ∧ handlerAddLineItem deployedLimits c7Env c7Env c7BadReq c7Item =
        (.error (.invalidRequest .descriptionRequired), []) :=
  ⟨(spec_C7.1 deployedLimits c7GoodReq).mpr
      ⟨by decide, by decide, by decide, by norm_num [c7GoodReq],
       by norm_num [c7GoodReq, deployedLimits], by norm_num [c7GoodReq],
       by norm_num [c7GoodReq, deployedLimits], by norm_num [c7GoodReq, deployedLimits]⟩,
   spec_C7.2.2 deployedLimits c7Env c7Env c7BadReq c7Item .descriptionRequired rfl⟩


/-- C8 exhibits the TTL bug: the snapshot fetched from the provider at time 0
(TTL 86400 s) is still served at time 86401 — one second *past* its TTL —
without consulting the shared cache or the provider, because `updateRates`
stamps `updatedAt = fetch time + TTL` while the freshness check tests
`now < updatedAt + TTL`, doubling the effective TTL.  This contradicts both
the claim and the code's own doc comment ("updates the exchange rates once
every configured TTL"). -/
theorem spec_C8_bug :
    getRates 86400 c8StaleState c8FetchEnv =
      (.ok ({ Rates := [("USD", 1)], UpdatedAt := 86400 }, c8FetchedState), true, true)
    ∧ getRates 86400 c8FetchedState c8LateEnv =
      (.ok ({ Rates := [("USD", 1)], UpdatedAt := 86400 }, c8FetchedState), false, false)
    ∧ 86400 < c8LateEnv.now - c8FetchEnv.now := by
  refine ⟨by decide, by decide, by decide⟩


theorem lookupRate_isSome_iff (rates : List (String × ℚ)) (c : String) :
    (lookupRate rates c).isSome ↔ c ∈ rates.map Prod.fst := by
  induction rates with
  | nil => simp [lookupRate]
  | cons p rest ih =>
    obtain ⟨c', x⟩ := p
    by_cases h : c' = c
    · simp [lookupRate, h]
    · simp [lookupRate, h, ih, Ne.symm h]


theorem mem_keys_addTo (l : List (String × ℚ)) (cur : String) (amount : ℚ) (x : String) :
    x ∈ (addTo l cur amount).map Prod.fst ↔ x ∈ l.map Prod.fst ∨ x = cur := by
  induction l with
  | nil => simp [addTo]
  | cons p rest ih =>
    obtain ⟨c', q'⟩ := p
    by_cases h : c' = cur
    · subst h
      simp [addTo]
      tauto
    · simp [addTo, h, ih]
      tauto


theorem mem_keys_byCurrency_aux (items : List LineItem) (acc : List (String × ℚ)) (x : String) :
    x ∈ (items.foldl (fun acc it => addTo acc it.Currency (it.UnitPrice * it.Quantity)) acc).map Prod.fst
    ↔ x ∈ acc.map Prod.fst ∨ ∃ it ∈ items, it.Currency = x := by
  induction items generalizing acc with
  | nil => simp
  | cons it rest ih =>
    show x ∈ ((rest.foldl _ (addTo acc it.Currency (it.UnitPrice * it.Quantity))).map Prod.fst) ↔ _
    rw [ih]
    rw [mem_keys_addTo]
    constructor
    · rintro (⟨h | h⟩ | h)
      · exact .inl h
      · exact .inr ⟨it, by simp, h.symm⟩
      · obtain ⟨i, hi, hx⟩ := h
        exact .inr ⟨i, by simp [hi], hx⟩
    · rintro (h | ⟨i, hi, hx⟩)
      · exact .inl (.inl h)
      · rcases List.mem_cons.mp hi with rfl | hi
        · exact .inl (.inr hx.symm)
        · exact .inr ⟨i, hi, hx⟩


theorem mem_keys_byCurrency (items : List LineItem) (x : String) :
    x ∈ (byCurrency items).map Prod.fst ↔ ∃ it ∈ items, it.Currency = x := by
  rw [byCurrency, mem_keys_byCurrency_aux]
  simp




theorem convertedGo_ok (rates : List (String × ℚ)) (cur : String) (frac : ℕ) :
    ∀ (l : List (String × ℚ)) (sum : ℚ),
      (∀ p ∈ l, p.1 = cur ∨ ((lookupRate rates p.1).isSome ∧ (lookupRate rates cur).isSome)) →
      convertedGo rates cur frac l sum =
        .ok (sum + ((l.filter (fun p => p.1 ≠ cur)).map
            (fun p => roundDec frac (p.2 * (rateOf rates cur / rateOf rates p.1)))).sum) := by
  intro l
  induction l with
  | nil => intro sum h; simp [convertedGo]
  | cons p rest ih =>
    intro sum h
    obtain ⟨other, amountOther⟩ := p
    by_cases ho : other = cur
    · rw [convertedGo, if_pos ho]
      rw [ih sum (fun q hq => h q (by simp [hq]))]
      simp [List.filter_cons, ho]
    · rcases h (other, amountOther) (by simp) with hc | ⟨h1, h2⟩
      · exact absurd hc ho
      · obtain ⟨fromX, hfrom⟩ := Option.isSome_iff_exists.mp h1
        obtain ⟨toX, hto⟩ := Option.isSome_iff_exists.mp h2
        rw [convertedGo, if_neg ho, hfrom, hto]
        dsimp only
        rw [ih _ (fun q hq => h q (by simp [hq]))]
        have hterm : roundDec frac (amountOther * (toX / fromX)) =
            roundDec frac (amountOther * (rateOf rates cur / rateOf rates other)) := by
          simp [rateOf, hfrom, hto]
        rw [hterm]
        congr 1
        rw [List.filter_cons_of_pos (by simpa using ho)]
        simp [add_assoc]


theorem convertedGo_err_from (rates : List (String × ℚ)) (cur : String) (frac : ℕ) :
    ∀ (l : List (String × ℚ)) (sum : ℚ),
      (∃ p ∈ l, p.1 ≠ cur ∧ lookupRate rates p.1 = none) →
      convertedGo rates cur frac l sum = .error .currencyNotFound := by
  intro l
  induction l with
  | nil => rintro sum ⟨p, hp, _⟩; simp at hp
  | cons q rest ih =>
    rintro sum ⟨p, hp, hne, hnone⟩
    obtain ⟨other, amountOther⟩ := q
    by_cases ho : other = cur
    · rw [convertedGo, if_pos ho]
      refine ih sum ⟨p, ?_, hne, hnone⟩
      rcases List.mem_cons.mp hp with rfl | h
      · exact absurd ho hne
      · exact h
    · rw [convertedGo, if_neg ho]
      cases hf : lookupRate rates other with
      | none => rfl
      | some fromX =>
        cases ht : lookupRate rates cur with
        | none => rfl
        | some toX =>
          refine ih _ ⟨p, ?_, hne, hnone⟩
          rcases List.mem_cons.mp hp with rfl | h
          · rw [hf] at hnone; exact absurd hnone (by simp)
          · exact h


theorem convertedGo_err_own (rates : List (String × ℚ)) (cur : String) (frac : ℕ)
    (hcur : lookupRate rates cur = none) :
    ∀ (l : List (String × ℚ)) (sum : ℚ),
      (∃ p ∈ l, p.1 ≠ cur) →
      convertedGo rates cur frac l sum = .error .currencyNotFound := by
  intro l
  induction l with
  | nil => rintro sum ⟨p, hp, _⟩; simp at hp
  | cons q rest ih =>
    rintro sum ⟨p, hp, hne⟩
    obtain ⟨other, amountOther⟩ := q
    by_cases ho : other = cur
    · rw [convertedGo, if_pos ho]
      refine ih sum ⟨p, ?_, hne⟩
      rcases List.mem_cons.mp hp with rfl | h
      · exact absurd ho hne
      · exact h
    · rw [convertedGo, if_neg ho]
      cases hf : lookupRate rates other with
      | none => rfl
      | some fromX => rw [hcur]


theorem buildConverted_ok (r : RatesData) (byCur : List (String × ℚ)) (g : String × ℚ → ℚ) :
    ∀ l : List (String × ℚ),
      (∀ p ∈ l, convertedGo r.Rates p.1 (currencyFraction p.1) byCur p.2 = .ok (g p)) →
      buildConverted r byCur l =
        .ok (l.map (fun p => (p.1, { Amount := g p, RateUpdatedAt := r.UpdatedAt }))) := by
  intro l
  induction l with
  | nil => intro h; rfl
  | cons p rest ih =>
    intro h
    obtain ⟨cur, amount⟩ := p
    rw [buildConverted, h (cur, amount) (by simp)]
    rw [ih (fun q hq => h q (by simp [hq]))]
    rfl




/-- Closed form of `Bill.CalculateSum` on a non-empty bill whose referenced
currencies all carry rates: it succeeds, `ByCurrency` groups the per-item
products, and each `Converted` entry is the own subtotal plus the
per-term-rounded conversions of the other subtotals. -/
theorem calculateSum_total_formula (b : Bill) (r : RatesData)
    (h1 : b.LineItems ≠ [])
    (h2 : ∀ it ∈ b.LineItems, (lookupRate r.Rates it.Currency).isSome) :
    calculateSum b r = .ok { b with
      LineItems := b.LineItems.map (fun item => { item with Total := item.UnitPrice * item.Quantity }),
      Total := some { ByCurrency := byCurrency b.LineItems,
                      Converted := (byCurrency b.LineItems).map (fun p =>
                        (p.1, { Amount := codeConvertedAmount r.Rates (byCurrency b.LineItems) p.1 p.2,
                                RateUpdatedAt := r.UpdatedAt })) } } := by
  have hkey : ∀ c, c ∈ (byCurrency b.LineItems).map Prod.fst → (lookupRate r.Rates c).isSome := by
    intro c hc
    obtain ⟨it, hit, hcur⟩ := (mem_keys_byCurrency _ _).mp hc
    exact hcur ▸ h2 it hit
  have hbc := buildConverted_ok r (byCurrency b.LineItems)
      (fun p => codeConvertedAmount r.Rates (byCurrency b.LineItems) p.1 p.2)
      (byCurrency b.LineItems) ?_
  · unfold calculateSum
    rw [if_neg h1]
    dsimp only
    rw [hbc]
  · intro p hp
    rw [convertedGo_ok r.Rates p.1 (currencyFraction p.1) (byCurrency b.LineItems) p.2 ?_]
    · rfl
    · intro q hq
      by_cases hqc : q.1 = p.1
      · exact .inl hqc
      · exact .inr ⟨hkey q.1 (List.mem_map_of_mem Prod.fst hq),
                    hkey p.1 (List.mem_map_of_mem Prod.fst hp)⟩

/-- C2 (amended): for every bill with at least one line item and a rates
snapshot covering every referenced currency, the totals satisfy:
`by_currency` groups quantity × unit_price by currency, and
`converted[C].amount = by_currency[C] + Σ over the *other* currencies C' of
round_C(by_currency[C'] · rate[C]/rate[C'])` — the own-currency subtotal
enters unrounded, which is where the code departs from the claim's
formula. -/
theorem spec_C2 (b : Bill) (r : RatesData)
    (h1 : b.LineItems ≠ [])
    (h2 : ∀ it ∈ b.LineItems, (lookupRate r.Rates it.Currency).isSome) :
    calculateSum b r = .ok { b with
      LineItems := b.LineItems.map (fun item => { item with Total := item.UnitPrice * item.Quantity }),
      Total := some { ByCurrency := byCurrency b.LineItems,
                      Converted := (byCurrency b.LineItems).map (fun p =>
                        (p.1, { Amount := codeConvertedAmount r.Rates (byCurrency b.LineItems) p.1 p.2,
                                RateUpdatedAt := r.UpdatedAt })) } } :=
  calculateSum_total_formula b r h1 h2




/-- C3 (amended): read-time total computation fails with currency-not-found
when some line item's currency is absent from the rates snapshot *and* the
bill's items span at least two distinct currencies (with a single distinct
currency no rate is ever consulted, so no failure occurs even when that
currency is absent); when every referenced currency is present it never fails
with currency-not-found; and when it does fail, `get_bill` propagates the
error and returns no bill, hence no partial totals. -/
theorem spec_C3 :
    (∀ (b : Bill) (r : RatesData) (m : String),
        (∃ it ∈ b.LineItems, it.Currency = m) →
        lookupRate r.Rates m = none →
        (∃ it ∈ b.LineItems, it.Currency ≠ m) →
        calculateSum b r = .error .currencyNotFound)
    ∧ (∀ (b : Bill) (r : RatesData),
        (∀ it ∈ b.LineItems, (lookupRate r.Rates it.Currency).isSome) →
        calculateSum b r ≠ .error .currencyNotFound)
    ∧ (∀ (env : SvcEnv) (b : Bill) (r : RatesData),
        env.machineQuery = .ok b → env.ratesResult = .ok r →
        calculateSum b r = .error .currencyNotFound →
        getBillByID env = .error .currencyNotFound) := by
  refine ⟨?_, ?_, ?_⟩
  · rintro b r m ⟨it, hit, hm⟩ hnone ⟨it2, hit2, hne2⟩
    have hmk : m ∈ (byCurrency b.LineItems).map Prod.fst :=
      (mem_keys_byCurrency _ _).mpr ⟨it, hit, hm⟩
    have hc2 : it2.Currency ∈ (byCurrency b.LineItems).map Prod.fst :=
      (mem_keys_byCurrency _ _).mpr ⟨it2, hit2, rfl⟩
    have hne : b.LineItems ≠ [] := by
      rintro hl
      rw [hl] at hit
      exact absurd hit (by simp)
    unfold calculateSum
    rw [if_neg hne]
    dsimp only
    rcases hbc : byCurrency b.LineItems with _ | ⟨⟨c0, a0⟩, rest⟩
    · rw [hbc] at hmk
      exact absurd hmk (by simp)
    · rw [hbc] at hmk hc2
      obtain ⟨pm, hpm, hpm1⟩ : ∃ p ∈ (c0, a0) :: rest, p.1 = m := by
        obtain ⟨p, hp, hp1⟩ := List.mem_map.mp hmk
        exact ⟨p, hp, hp1⟩
      obtain ⟨p2, hp2, hp21⟩ : ∃ p ∈ (c0, a0) :: rest, p.1 = it2.Currency := by
        obtain ⟨p, hp, hp1⟩ := List.mem_map.mp hc2
        exact ⟨p, hp, hp1⟩
      by_cases hc0 : c0 = m
      · -- the head entry is the missing currency; another key exists
        have herr := convertedGo_err_own r.Rates c0 (currencyFraction c0)
          (by rw [hc0]; exact hnone) ((c0, a0) :: rest) a0
          ⟨p2, hp2, by rw [hp21, hc0]; exact hne2⟩
        rw [buildConverted, herr]
      · -- the head entry is another currency; the missing one is among the others
        have herr := convertedGo_err_from r.Rates c0 (currencyFraction c0)
          ((c0, a0) :: rest) a0
          ⟨pm, hpm, by rw [hpm1]; exact fun hh => hc0 hh.symm, by rw [hpm1]; exact hnone⟩
        rw [buildConverted, herr]
  · intro b r h
    by_cases hl : b.LineItems = []
    · unfold calculateSum
      rw [if_pos hl]
      simp
    · rw [calculateSum_total_formula b r hl h]
      simp
  · intro env b r h1 h2 h3
    simp [getBillByID, h1, svcCalculateSum, h2, h3]




/-- Witness for the amended C2 at the specification's own example: items
`{qty 1, unit 10, USD}` and `{qty 2, unit 5, GEL}` with rates
`{USD 1.0, GEL 2.5}` give `converted[USD] = 14` and `converted[GEL] = 35`. -/
theorem spec_C2_witness :
    calculateSum c2Bill c2Rates = .ok { c2Bill with
      LineItems := [{ c2Item1 with Total := 10 }, { c2Item2 with Total := 10 }],
      Total := some { ByCurrency := [("USD", 10), ("GEL", 10)],
                      Converted := [("USD", { Amount := 14, RateUpdatedAt := 7 }),
                                    ("GEL", { Amount := 35, RateUpdatedAt := 7 })] } } := by
  have h := spec_C2 c2Bill c2Rates (by decide)
    (by
      intro it hit
      simp only [c2Bill, List.mem_cons, List.not_mem_nil, or_false] at hit
      rcases hit with rfl | rfl <;> decide)
  rw [h]
  simp [codeConvertedAmount, byCurrency, addTo, rateOf, lookupRate,
        currencyFraction, c2Bill, c2Item1, c2Item2, c2Rates]
  norm_num [roundDec, roundHalfAwayFromZero]


/-- Counterexample to C2 as stated: with items `{qty 1, unit 10.005, USD}`
and `{qty 1, unit 1, GEL}` and rates `{USD 1, GEL 1}`, the code computes
`converted[USD] = 10.005 + round2(1) = 11.005`, while the claim's formula
gives `round2(10.005) + round2(1) = 11.01` (per-term rounding) and
`round2(10.005 + 1) = 11.01` (whole-sum rounding) — the code never rounds
the own-currency subtotal, so both readings of the claim fail here. -/
theorem spec_C2_counterexample :
    calculateSum c2cBill c2cRates = .ok { c2cBill with
      LineItems := [{ c2cItem1 with Total := 10.005 }, { c2cItem2 with Total := 1 }],
      Total := some { ByCurrency := [("USD", 10.005), ("GEL", 1)],
                      Converted := [("USD", { Amount := 11.005, RateUpdatedAt := 3 }),
                                    ("GEL", { Amount := 11.01, RateUpdatedAt := 3 })] } }
    ∧ claimConvertedPerTerm c2cRates.Rates (byCurrency c2cBill.LineItems) "USD" = 11.01
    ∧ claimConvertedWholeSum c2cRates.Rates (byCurrency c2cBill.LineItems) "USD" = 11.01
    ∧ (11.005 : ℚ) ≠ 11.01 := by
  refine ⟨?_, ?_, ?_, by norm_num⟩ <;>
  · simp [calculateSum, buildConverted, convertedGo, byCurrency, addTo, lookupRate,
          claimConvertedPerTerm, claimConvertedWholeSum, rateOf,
          currencyFraction, c2cBill, c2cItem1, c2cItem2, c2cRates]
    norm_num [roundDec, roundHalfAwayFromZero]


/-- Witness for the amended C3: a two-currency bill with the GEL rate absent
fails with currency-not-found, and the same bill with full rates does not. -/
theorem spec_C3_witness :
    calculateSum c3Bill c3RatesMissing = .error .currencyNotFound
    ∧ calculateSum c3Bill c3RatesFull ≠ .error .currencyNotFound :=
  ⟨spec_C3.1 c3Bill c3RatesMissing "GEL"
      ⟨c3ItemGEL, by simp [c3Bill], rfl⟩ rfl ⟨c3ItemUSD, by simp [c3Bill], by decide⟩,
   spec_C3.2.1 c3Bill c3RatesFull
      (by
        intro it hit
        simp only [c3Bill, List.mem_cons, List.not_mem_nil, or_false] at hit
        rcases hit with rfl | rfl <;> decide)⟩


/-- Counterexample to C3 as stated: a bill whose single line item references
a currency entirely absent from an *empty* rates snapshot nevertheless
succeeds — the conversion loop never looks up a rate when only one distinct
currency is present — contradicting the claim that any absent referenced
currency makes the computation fail with currency-not-found. -/
theorem spec_C3_counterexample :
    (∃ it ∈ c3cBill.LineItems, lookupRate c3cRates.Rates it.Currency = none)
    ∧ calculateSum c3cBill c3cRates = .ok { c3cBill with
        LineItems := [{ c3cItem with Total := 6 }],
        Total := some { ByCurrency := [("GEL", 6)],
                        Converted := [("GEL", { Amount := 6, RateUpdatedAt := 0 })] } } := by
  constructor
  · exact ⟨c3cItem, by simp [c3cBill], rfl⟩
  · simp [calculateSum, buildConverted, convertedGo, byCurrency, addTo, lookupRate,
          c3cBill, c3cItem, c3cRates]
    norm_num


end PaveBilling
